import Mathlib

/-!
Verification development for the PhyloBuilder retrieval-and-reporting
pipeline (src/GetFastas.py).  The Python functions are shallowly embedded
as pure Lean functions: the remote Entrez service (esearch/efetch) becomes
an explicit `Service` record of query/id functions returning `Except`
(a raised transport or service exception becomes `.error msg`), console
output (`print` / `tqdm.write`) becomes an accumulated list of printed
lines, and the two files written by `finalize_report` become fields of the
final `RunOutput`.
-/

/- ## Query construction (construct_search_query, src/GetFastas.py 57-65) -/

/-- One parsed item of a Python `str.format` template: a literal chunk, an
explicit positional field `\x7bk\x7d`, or a named field `\x7bname\x7d`. -/
inductive TItem where
  | lit (s : String)
  | pos (k : Nat)
  | named (n : String)
deriving DecidableEq, Repr

/-- The keyword arguments supplied by the `prompt_template.format(...)`
call: `species`, `gene_name`, `min_length`, `max_length` (line 62). -/
def lookupNamed (n species gene_name min_length max_length : String) :
    Option String :=
  if n == "species" then some species
  else if n == "gene_name" then some gene_name
  else if n == "min_length" then some min_length
  else if n == "max_length" then some max_length
  else none

/-- `prompt_template.format(*template_values, species=..., gene_name=...,
min_length=..., max_length=...)` (line 62): substitute the positional
values first, then the four named fields; an out-of-range positional
reference or an unknown name raises (IndexError / KeyError), which the
embedding returns as `.error`. -/
def formatTemplate (vals : List String)
    (species gene_name min_length max_length : String) :
    List TItem → Except String String
  | [] => .ok ""
  | TItem.lit t :: rest =>
    (formatTemplate vals species gene_name min_length max_length rest).map
      (fun r => t ++ r)
  | TItem.pos k :: rest =>
    match vals[k]? with
    | none => .error ("IndexError: Replacement index " ++ toString k ++
        " out of range for positional args tuple")
    | some v =>
      (formatTemplate vals species gene_name min_length max_length rest).map
        (fun r => v ++ r)
  | TItem.named n :: rest =>
    match lookupNamed n species gene_name min_length max_length with
    | none => .error ("KeyError: " ++ n)
    | some v =>
      (formatTemplate vals species gene_name min_length max_length rest).map
        (fun r => v ++ r)

/-- The default search expression (line 64):
`f"{species}[Organism] AND {gene_name}[All Fields] AND
{min_length}:{max_length}[Sequence Length]"`. -/
def defaultQuery (species gene_name : String)
    (min_length max_length : Nat) : String :=
  species ++ "[Organism] AND " ++ gene_name ++ "[All Fields] AND " ++
    toString min_length ++ ":" ++ toString max_length ++ "[Sequence Length]"

/-- Python truthiness of `Optional[str] prompt_template`:
`None` and the empty template are falsy. -/
def pyTruthyTmpl : Option (List TItem) → Bool
  | none => false
  | some l => !l.isEmpty

/-- Python truthiness of `Optional[Tuple] template_values`:
`None` and the empty tuple are falsy. -/
def pyTruthyVals : Option (List String) → Bool
  | none => false
  | some l => !l.isEmpty

/-- `construct_search_query` (src/GetFastas.py 57-65).  Note the guard is
`if prompt_template and template_values:` — the template path is taken only
when BOTH are truthy; otherwise the default f-string expression is used. -/
def construct_search_query (species gene_name : String)
    (min_length max_length : Nat) (prompt_template : Option (List TItem))
    (template_values : Option (List String)) : Except String String :=
  if pyTruthyTmpl prompt_template && pyTruthyVals template_values then
    formatTemplate (template_values.getD []) species gene_name
      (toString min_length) (toString max_length) (prompt_template.getD [])
  else
    .ok (defaultQuery species gene_name min_length max_length)

/- ## Remote fetch client (fetch_sequence, src/GetFastas.py 67-85) -/

/-- The external Entrez service, abstracted: `esearch` maps a query string
to the ranked `IdList` of the search result (or a raised error), already
closed over the fixed `db="nucleotide"`, `sort="relevance"` and the extra
keyword parameters that `fetch_sequence` forwards verbatim; `efetch` maps a
record id to the raw FASTA text (`rettype="fasta"`, `retmode="text"`) or a
raised error. -/
structure Service where
  esearch : String → Except String (List String)
  efetch : String → Except String String

/-- Python truthiness of a `str`: `True` iff non-empty. -/
def pyTruthyStr (s : String) : Bool := !(s == "")

/-- Python truthiness of an `Optional[str]`: `None` and `""` are falsy. -/
def pyTruthyOpt : Option String → Bool
  | none => false
  | some s => pyTruthyStr s

/-- `if sequence_id and fasta_sequence:` (src/GetFastas.py line 42):
both components of the pair returned by `fetch_sequence` are truthy. -/
def isFoundPair (p : Option String × Option String) : Bool :=
  pyTruthyOpt p.1 && pyTruthyOpt p.2

/-- The line `tqdm.write(f"Error fetching sequence for query:
{search_query}. Error: {e}")` (line 84). -/
def errFetchMsg (search_query e : String) : String :=
  "Error fetching sequence for query: " ++ search_query ++ ". Error: " ++ e

/-- `fetch_sequence` (src/GetFastas.py 67-85).  The whole body is inside
`try: ... except Exception as e:` — any error raised by the search or the
fetch is caught; the error message is printed only when `skip_errors` is
false, and `(None, None)` is returned in every non-hit case.  The first
component of the result is the `(sequence_id, fasta_sequence)` pair, the
second the list of printed lines. -/
def fetch_sequence (svc : Service) (search_query : String)
    (skip_errors : Bool) : (Option String × Option String) × List String :=
  match svc.esearch search_query with
  | .error e =>
    ((none, none), if skip_errors then [] else [errFetchMsg search_query e])
  | .ok idList =>
    match idList with
    | [] => ((none, none), [])
    | sequence_id :: _ =>
      match svc.efetch sequence_id with
      | .error e =>
        ((none, none),
          if skip_errors then [] else [errFetchMsg search_query e])
      | .ok fasta_sequence => ((some sequence_id, some fasta_sequence), [])

/- ## Classification helpers (src/GetFastas.py 46-51, 94-98) -/

/-- Python's `c.lower()` per character (ASCII case fold, as `Char.toLower`). -/
def pyLower (s : String) : String := String.mk (s.data.map Char.toLower)

/-- `needle` occurs at the start of `hay`. -/
def leadsWith : List Char → List Char → Bool
  | [], _ => true
  | _ :: _, [] => false
  | a :: as, b :: bs => a == b && leadsWith as bs

/-- Python's substring test `needle in hay` on character lists. -/
def strIn (needle : List Char) : List Char → Bool
  | [] => needle.isEmpty
  | b :: t => leadsWith needle (b :: t) || strIn needle t

/-- Python's `a in b` for strings: `a` is a contiguous substring of `b`. -/
def pyIn (a b : String) : Bool := strIn a.data b.data

/-- The classifier's name-match heuristic: `species.lower() in
fasta_sequence.lower()` (src/GetFastas.py line 48, there negated). -/
def name_match (species fasta_sequence : String) : Bool :=
  pyIn (pyLower species) (pyLower fasta_sequence)

/-- `generate_warning` (src/GetFastas.py 94-98). -/
def generate_warning (species : String) : String :=
  "WARNING: Full/Same name for " ++ species ++
    " not found in fasta header, check it manually!"

/-- The verbose line of `report_sequence_found` (src/GetFastas.py 87-92):
`f"For {species} {gene_name}, found {sequence_id} with length
{len(fasta_sequence)}."`. -/
def foundMsg (species gene_name sequence_id fasta_sequence : String) :
    String :=
  "For " ++ species ++ " " ++ gene_name ++ ", found " ++ sequence_id ++
    " with length " ++ toString fasta_sequence.length ++ "."

/-- `c` starts a new line for Python's `str.splitlines`. -/
def isLineBreak (c : Char) : Bool :=
  c == '\n' || c == '\r' || c == '\x0b' || c == '\x0c' || c == '\x1c' ||
    c == '\x1d' || c == '\x1e' || c == '\x85' || c == '\u2028' ||
    c == '\u2029'

/-- Python's `"a b".split(" ")`: split on every single space, keeping
empty pieces; always returns at least one piece. -/
def splitSpace (cur : List Char) : List Char → List String
  | [] => [String.mk cur.reverse]
  | c :: rest =>
    if c == ' ' then String.mk cur.reverse :: splitSpace [] rest
    else splitSpace (c :: cur) rest

/-- `fasta_sequence.splitlines()[0].split(" ")[0][1:]` (src/GetFastas.py
line 45): the id recorded in `found_species` is parsed out of the fetched
FASTA text — first line, first space-separated token, leading character
(the `>`) dropped.  `splitlines()[0]` is the character run before the
first line-break character; it is total here (`[0]` cannot fail because
this is only reached when `fasta_sequence` is truthy, hence non-empty). -/
def headerId (fasta_sequence : String) : String :=
  String.mk
    ((((splitSpace []
        (fasta_sequence.data.takeWhile (fun c => !isLineBreak c))).headD
        "").data).drop 1)

/-- The placeholder block of `handle_not_found` (src/GetFastas.py 106):
`f">{species} {gene_name} not found.\n\n"`. -/
def notFoundBlock (species gene_name : String) : String :=
  ">" ++ species ++ " " ++ gene_name ++ " not found.\n\n"

/- ## Orchestrator (fetch_gene_sequences, src/GetFastas.py 5-55) -/

/-- The run parameters of `fetch_gene_sequences` (src/GetFastas.py 5-17),
with the remote service made explicit. -/
structure Params where
  svc : Service
  gene_name : String
  min_length : Nat
  max_length : Nat
  prompt_template : Option (List TItem)
  template_values : Option (List String)
  verbose : Bool
  skip_errors : Bool
  skip_warnings : Bool

/-- The loop-local accumulators of `fetch_gene_sequences`
(src/GetFastas.py 36-37) plus the lines printed so far
(`print` / `tqdm.write`). -/
structure RunState where
  found : List (String × String)
  unfound : List String
  warnings : String
  corpus : List String
  used_species : List String
  printed : List String
deriving DecidableEq, Repr

/-- `handle_not_found` (src/GetFastas.py 100-106): append the species to
`unfound_species`; unless `skip_errors`, also append the placeholder block
to `fasta_sequences`. -/
def handle_not_found (species gene_name : String) (skip_errors : Bool)
    (st : RunState) : RunState :=
  { st with
    unfound := st.unfound ++ [species]
    corpus :=
      if skip_errors then st.corpus
      else st.corpus ++ [notFoundBlock species gene_name] }

/-- The body of the per-species loop (src/GetFastas.py 41-53) after the
search query has been constructed: fetch, classify, accumulate. -/
def stepCore (P : Params) (st : RunState) (species search_query : String) :
    RunState :=
  let r := fetch_sequence P.svc search_query P.skip_errors
  let st1 : RunState := { st with printed := st.printed ++ r.2 }
  if isFoundPair r.1 then
    let fasta_sequence := r.1.2.getD ""
    let sequence_id := r.1.1.getD ""
    let st2 : RunState := { st1 with
      corpus := st1.corpus ++ [fasta_sequence]
      printed := st1.printed ++
        (if P.verbose then
          [foundMsg species P.gene_name sequence_id fasta_sequence]
         else [])
      found := st1.found ++ [(species, headerId fasta_sequence)]
      used_species := st1.used_species ++ [species] }
    if !(name_match species fasta_sequence) && !P.skip_warnings then
      { st2 with
        printed := st2.printed ++ [generate_warning species]
        warnings := st2.warnings ++ generate_warning species ++ "\n" }
    else st2
  else
    handle_not_found species P.gene_name P.skip_errors st1

/-- The search query for one species (src/GetFastas.py line 40). -/
def queryOf (P : Params) (species : String) : Except String String :=
  construct_search_query species P.gene_name P.min_length P.max_length
    P.prompt_template P.template_values

/-- One full loop iteration (src/GetFastas.py 39-53): a query-template
error raised by `construct_search_query` propagates (it is outside the
`try` of `fetch_sequence`) and aborts the run; everything else continues. -/
def processSpecies (P : Params) (st : RunState) (species : String) :
    Except String RunState :=
  match queryOf P species with
  | .error e => .error e
  | .ok search_query => .ok (stepCore P st species search_query)

/-- The `for species in tqdm(species_list):` loop (src/GetFastas.py 39). -/
def runLoop (P : Params) (st : RunState) :
    List String → Except String RunState
  | [] => .ok st
  | species :: rest =>
    match processSpecies P st species with
    | .error e => .error e
    | .ok st2 => runLoop P st2 rest

/-- The initial accumulators (src/GetFastas.py 36-37): all empty. -/
def initState : RunState :=
  { found := [], unfound := [], warnings := "", corpus := [],
    used_species := [], printed := [] }

/-- The final in-memory report together with the two persisted artifacts:
`outputFasta` is the content written to `output.fasta`
(`file.writelines(fasta_sequences)`, i.e. the blocks concatenated), and
`usedFile` is the content of `used_species.txt` when it is written
(`None` when it is not). -/
structure RunOutput where
  found : List (String × String)
  unfound : List String
  warnings : String
  corpus : List String
  used_species : List String
  printed : List String
  outputFasta : String
  usedFile : Option String
deriving DecidableEq, Repr

/-- `finalize_report` (src/GetFastas.py 108-122): write `output.fasta`
always; write `used_species.txt` (one species per line) if and only if
`skip_errors or skip_warnings`.  The console summary prints are Python
`repr`-formatted and are not modelled. -/
def finalize_report (P : Params) (st : RunState) : RunOutput :=
  { found := st.found, unfound := st.unfound, warnings := st.warnings,
    corpus := st.corpus, used_species := st.used_species,
    printed := st.printed,
    outputFasta := String.join st.corpus,
    usedFile :=
      if P.skip_errors || P.skip_warnings then
        some (String.join (st.used_species.map (fun s => s ++ "\n")))
      else none }

/-- `fetch_gene_sequences` (src/GetFastas.py 5-55): run the per-species
loop from empty accumulators, then finalize.  The only `.error` outcome is
an uncaught query-template error. -/
def fetch_gene_sequences (P : Params) (species_list : List String) :
    Except String RunOutput :=
  match runLoop P initState species_list with
  | .error e => .error e
  | .ok st => .ok (finalize_report P st)

/- ## Derived per-species views (used to state run-level properties) -/

/-- The `(sequence_id, fasta_sequence)` pair the loop obtains for one
species (src/GetFastas.py 40-41); `(none, none)` when the query template
errors (that case aborts the run before the pair is used). -/
def pairOf (P : Params) (species : String) : Option String × Option String :=
  match queryOf P species with
  | .error _ => (none, none)
  | .ok q => (fetch_sequence P.svc q P.skip_errors).1

/-- The species is classified Found (src/GetFastas.py line 42). -/
def isFound (P : Params) (species : String) : Bool :=
  isFoundPair (pairOf P species)

/-- The FASTA text used in the Found branch. -/
def fastaFor (P : Params) (species : String) : String :=
  (pairOf P species).2.getD ""

/-- What one iteration appends to `found_species`. -/
def foundUnit (P : Params) (species : String) : List (String × String) :=
  if isFound P species then [(species, headerId (fastaFor P species))]
  else []

/-- What one iteration appends to `unfound_species`. -/
def unfoundUnit (P : Params) (species : String) : List String :=
  if isFound P species then [] else [species]

/-- What one iteration appends to `used_species`. -/
def usedUnit (P : Params) (species : String) : List String :=
  if isFound P species then [species] else []

/-- What one iteration appends to `fasta_sequences` (the corpus). -/
def corpusUnit (P : Params) (species : String) : List String :=
  if isFound P species then [fastaFor P species]
  else if P.skip_errors then [] else [notFoundBlock species P.gene_name]

/-- The single corpus block a species contributes when `skip_errors` is
false: its FASTA text if found, else the placeholder. -/
def blockOf (P : Params) (species : String) : String :=
  if isFound P species then fastaFor P species
  else notFoundBlock species P.gene_name

/-- The total (never-aborting) view of one loop iteration: identical to
`processSpecies` whenever the query construction succeeds. -/
def stepOK (P : Params) (st : RunState) (species : String) : RunState :=
  match queryOf P species with
  | .error _ => st
  | .ok q => stepCore P st species q

/-- Concatenation of per-element lists (`List.append` folded over a map);
self-contained so that concrete runs reduce definitionally. -/
def catMap (f : α → List β) : List α → List β
  | [] => []
  | a :: l => f a ++ catMap f l

/- ## Concrete fixtures for counterexamples and witnesses -/

/-- A service whose search always raises (models a transport error such as
an HTTP failure inside `Entrez.esearch`). -/
def svcErr : Service :=
  { esearch := fun _ => .error "HTTPError"
    efetch := fun _ => .error "HTTPError" }

/-- A run over `svcErr` with `skip_errors = False`. -/
def pErr : Params :=
  { svc := svcErr, gene_name := "BRCA1", min_length := 0, max_length := 9,
    prompt_template := none, template_values := none,
    verbose := false, skip_errors := false, skip_warnings := false }

/-- A service returning search id `"12345"` whose fetched FASTA header
starts with a different accession, `NM_0001.1`. -/
def svcC2 : Service :=
  { esearch := fun _ => .ok ["12345"]
    efetch := fun i =>
      if i == "12345" then
        .ok ">NM_0001.1 Homo sapiens BRCA1 mRNA\nACGTACGT\n"
      else .error "unknown id" }

/-- A run over `svcC2`. -/
def pC2 : Params :=
  { svc := svcC2, gene_name := "BRCA1", min_length := 0, max_length := 9,
    prompt_template := none, template_values := none,
    verbose := false, skip_errors := false, skip_warnings := false }

/-- A service with a hit whose fetched text is the empty string. -/
def svcC9 : Service :=
  { esearch := fun _ => .ok ["777"], efetch := fun _ => .ok "" }

/-- A run over `svcC9`. -/
def pC9 : Params :=
  { svc := svcC9, gene_name := "BRCA1", min_length := 0, max_length := 9,
    prompt_template := none, template_values := none,
    verbose := false, skip_errors := false, skip_warnings := false }

/-- A deterministic fake service: a hit (id `"11"`) for the Homo sapiens
default query only; fetching `"11"` returns a FASTA record whose header
contains the species name. -/
def svcW : Service :=
  { esearch := fun q =>
      if q == defaultQuery "Homo sapiens" "BRCA1" 0 9 then .ok ["11"]
      else .ok []
    efetch := fun i =>
      if i == "11" then .ok ">AB1.2 Homo sapiens BRCA1\nACGT\n"
      else .error "unknown id" }

/-- A run over `svcW` with `skip_errors = False`. -/
def pW4 : Params :=
  { svc := svcW, gene_name := "BRCA1", min_length := 0, max_length := 9,
    prompt_template := none, template_values := none,
    verbose := false, skip_errors := false, skip_warnings := false }

/-- A run over `svcW` with `skip_errors = True`. -/
def pW5 : Params :=
  { svc := svcW, gene_name := "BRCA1", min_length := 0, max_length := 9,
    prompt_template := none, template_values := none,
    verbose := false, skip_errors := true, skip_warnings := false }

/-- A service with a hit whose fetched text does not contain the queried
species name (a name mismatch). -/
def svcMis : Service :=
  { esearch := fun _ => .ok ["21"]
    efetch := fun i =>
      if i == "21" then .ok ">XY_9.9 Canis familiaris ANYGENE\nACGT\n"
      else .error "unknown id" }

/-- A run over `svcMis` with warnings enabled. -/
def pMis : Params :=
  { svc := svcMis, gene_name := "BRCA1", min_length := 0, max_length := 9,
    prompt_template := none, template_values := none,
    verbose := false, skip_errors := false, skip_warnings := false }

/-- A service with zero hits for every query. -/
def svcNone : Service :=
  { esearch := fun _ => .ok [], efetch := fun _ => .error "unused" }

/-- A run over `svcNone` with `skip_errors = False`. -/
def pNone : Params :=
  { svc := svcNone, gene_name := "BRCA1", min_length := 0, max_length := 9,
    prompt_template := none, template_values := none,
    verbose := false, skip_errors := false, skip_warnings := false }

/-- A service whose search succeeds with a hit but whose fetch call always
raises (models a transport error inside `Entrez.efetch`). -/
def svcFErr : Service :=
  { esearch := fun _ => .ok ["99"]
    efetch := fun _ => .error "ReadTimeout" }

/-- A run over `svcFErr` with `skip_errors = True`. -/
def pFErr : Params :=
  { svc := svcFErr, gene_name := "BRCA1", min_length := 0, max_length := 9,
    prompt_template := none, template_values := none,
    verbose := false, skip_errors := true, skip_warnings := false }

/-- A run whose query template references the unsupplied name `foo` while
`template_values` is non-empty, so the template path is taken and the
substitution raises. -/
def pBadTmpl : Params :=
  { svc := svcW, gene_name := "BRCA1", min_length := 0, max_length := 9,
    prompt_template := some [TItem.named "foo"],
    template_values := some ["extra"],
    verbose := false, skip_errors := false, skip_warnings := false }

/- ## Helper lemmas -/

/-- When `fetch_sequence` returns a present pair, it printed nothing. -/
lemma fetch_sequence_some_printed (svc : Service) (q : String) (b : Bool)
    (i f : String) (hp : (fetch_sequence svc q b).1 = (some i, some f)) :
    (fetch_sequence svc q b).2 = [] := by
  unfold fetch_sequence at hp ⊢
  cases hs : svc.esearch q with
  | error e => simp [hs] at hp
  | ok ids =>
    cases ids with
    | nil => simp [hs] at hp ⊢
    | cons id rest =>
      cases hf : svc.efetch id with
      | error e => simp [hs, hf] at hp
      | ok fasta => simp [hs, hf]

/-- `catMap` over a guarded singleton is `filter` then `map`. -/
lemma catMap_guard (p : α → Bool) (f : α → β) :
    ∀ l : List α,
      catMap (fun a => if p a then [f a] else []) l = (l.filter p).map f := by
  intro l
  induction l with
  | nil => rfl
  | cons a t ih =>
    cases hp : p a <;> simp [catMap, List.filter_cons, hp, ih]

/-- `catMap` over a plain singleton is `map`. -/
lemma catMap_single (f : α → β) :
    ∀ l : List α, catMap (fun a => [f a]) l = l.map f := by
  intro l
  induction l with
  | nil => rfl
  | cons a t ih => simp [catMap, ih]

/-- Filtering by a predicate and by its negation splits the length. -/
lemma length_filter_both (p : α → Bool) :
    ∀ l : List α,
      (l.filter p).length + (l.filter (fun a => !p a)).length = l.length := by
  intro l
  induction l with
  | nil => rfl
  | cons a t ih =>
    cases hp : p a <;> simp [List.filter_cons, hp] <;> omega

/-- Effect of one query-successful iteration on the four accumulator
lists: each gets exactly its per-species unit appended. -/
lemma stepOK_fields (P : Params) (st : RunState) (s q : String)
    (hq : queryOf P s = .ok q) :
    (stepOK P st s).found = st.found ++ foundUnit P s ∧
    (stepOK P st s).unfound = st.unfound ++ unfoundUnit P s ∧
    (stepOK P st s).corpus = st.corpus ++ corpusUnit P s ∧
    (stepOK P st s).used_species = st.used_species ++ usedUnit P s := by
  unfold stepOK foundUnit unfoundUnit corpusUnit usedUnit isFound fastaFor
    pairOf
  rw [hq]
  unfold stepCore handle_not_found
  cases hf : isFoundPair (fetch_sequence P.svc q P.skip_errors).1 with
  | false =>
    simp only [hf, Bool.false_eq_true, if_false]
    cases hse : P.skip_errors <;> simp
  | true =>
    simp only [hf, if_true]
    split <;> simp

/-- A completed loop had a successful query for every species and equals
the fold of the total step. -/
lemma runLoop_ok_elim (P : Params) :
    ∀ (l : List String) (st out : RunState), runLoop P st l = .ok out →
      (∀ s ∈ l, ∃ q, queryOf P s = .ok q) ∧ out = l.foldl (stepOK P) st := by
  intro l
  induction l with
  | nil =>
    intro st out h
    simp only [runLoop] at h
    cases h
    exact ⟨by simp, rfl⟩
  | cons s t ih =>
    intro st out h
    simp only [runLoop, processSpecies] at h
    cases hq : queryOf P s with
    | error e => rw [hq] at h; cases h
    | ok q =>
      rw [hq] at h
      obtain ⟨hall, hout⟩ := ih _ _ h
      refine ⟨?_, ?_⟩
      · intro s2 hs2
        rcases List.mem_cons.mp hs2 with h1 | h2
        · exact ⟨q, h1 ▸ hq⟩
        · exact hall s2 h2
      · have hstep : stepOK P st s = stepCore P st s q := by
          unfold stepOK; rw [hq]
        simp only [List.foldl_cons, hstep]
        exact hout

/-- The fold of the total step appends the per-species units of every
species, in order, to each accumulator list. -/
lemma foldl_fields (P : Params) :
    ∀ (l : List String) (st : RunState),
      (∀ s ∈ l, ∃ q, queryOf P s = .ok q) →
      (l.foldl (stepOK P) st).found = st.found ++ catMap (foundUnit P) l ∧
      (l.foldl (stepOK P) st).unfound
        = st.unfound ++ catMap (unfoundUnit P) l ∧
      (l.foldl (stepOK P) st).corpus
        = st.corpus ++ catMap (corpusUnit P) l ∧
      (l.foldl (stepOK P) st).used_species
        = st.used_species ++ catMap (usedUnit P) l := by
  intro l
  induction l with
  | nil => intro st _; simp [catMap]
  | cons s t ih =>
    intro st hall
    obtain ⟨q, hq⟩ := hall s (List.mem_cons_self s t)
    have htail : ∀ s2 ∈ t, ∃ q2, queryOf P s2 = .ok q2 :=
      fun s2 hs2 => hall s2 (List.mem_cons_of_mem s hs2)
    obtain ⟨h1, h2, h3, h4⟩ := stepOK_fields P st s q hq
    obtain ⟨g1, g2, g3, g4⟩ := ih (stepOK P st s) htail
    refine ⟨?_, ?_, ?_, ?_⟩ <;>
      simp [List.foldl_cons, g1, g2, g3, g4, h1, h2, h3, h4, catMap,
        List.append_assoc]

/-- A completed run is the finalization of the fully characterized state:
each accumulator is the concatenation of its per-species units. -/
lemma run_ok_char (P : Params) (l : List String) (out : RunOutput)
    (h : fetch_gene_sequences P l = .ok out) :
    out.found = catMap (foundUnit P) l ∧
    out.unfound = catMap (unfoundUnit P) l ∧
    out.corpus = catMap (corpusUnit P) l ∧
    out.used_species = catMap (usedUnit P) l ∧
    out.usedFile = (if P.skip_errors || P.skip_warnings then
        some (String.join (out.used_species.map (fun s => s ++ "\n")))
      else none) := by
  unfold fetch_gene_sequences at h
  cases hr : runLoop P initState l with
  | error e => rw [hr] at h; cases h
  | ok st =>
    rw [hr] at h
    cases h
    obtain ⟨hall, hout⟩ := runLoop_ok_elim P l initState st hr
    obtain ⟨h1, h2, h3, h4⟩ := foldl_fields P l initState hall
    rw [hout] at *
    constructor
    · simpa [finalize_report, initState] using h1
    constructor
    · simpa [finalize_report, initState] using h2
    constructor
    · simpa [finalize_report, initState] using h3
    constructor
    · simpa [finalize_report, initState] using h4
    · simp [finalize_report]

/- ## Claim C1 -/

/-- Claim C1, counterexample.  The claim says that with `skip_errors =
False` a fetch error aborts the whole run, the error propagates and no
output file is persisted.  On the code this is false: with `pErr`
(`skip_errors = False`, a service whose search always raises), the run
completes normally (`.ok`), the erroring species is handled as not-found,
`output.fasta` is persisted with the placeholder block, and the only trace
of the error is a printed message. -/
theorem C1_counterexample :
    fetch_gene_sequences pErr ["Homo sapiens"] = .ok
      { found := [], unfound := ["Homo sapiens"], warnings := "",
        corpus := [">Homo sapiens BRCA1 not found.\n\n"],
        used_species := [],
        printed := ["Error fetching sequence for query: Homo sapiens[Organism] AND BRCA1[All Fields] AND 0:9[Sequence Length]. Error: HTTPError"],
        outputFasta := ">Homo sapiens BRCA1 not found.\n\n",
        usedFile := none } := by
  rfl

/-- Claim C1, amended: an error raised at either point of the per-species
fetch step — by the search call, or by the fetch call issued for the first
search hit — is always caught inside `fetch_sequence`: the species is
treated as an absent result (`handle_not_found`) and the loop continues
regardless of `skip_errors`; the only effect of `skip_errors = False` on
such an error is that the error message is printed. -/
theorem C1_fetch_error_absorbed (P : Params) (st : RunState) (s q e : String)
    (hq : queryOf P s = .ok q)
    (he : P.svc.esearch q = .error e ∨
      ∃ id rest, P.svc.esearch q = .ok (id :: rest) ∧
        P.svc.efetch id = .error e) :
    processSpecies P st s =
      .ok (handle_not_found s P.gene_name P.skip_errors
        { st with printed := st.printed ++
            (if P.skip_errors then [] else [errFetchMsg q e]) }) := by
  unfold processSpecies
  rw [hq]
  unfold stepCore
  rcases he with he | ⟨id, rest, hs, hf⟩
  · simp [fetch_sequence, he, isFoundPair, pyTruthyOpt]
  · simp [fetch_sequence, hs, hf, isFoundPair, pyTruthyOpt]

/-- Witness for `C1_fetch_error_absorbed` at both error sites: the
search-call error of `pErr` (`skip_errors = False`, message printed) and
the fetch-call error of `pFErr` (`skip_errors = True`, silent). -/
theorem C1_fetch_error_absorbed_witness :
    (processSpecies pErr initState "Homo sapiens" =
      .ok (handle_not_found "Homo sapiens" pErr.gene_name pErr.skip_errors
        { initState with printed := initState.printed ++
            (if pErr.skip_errors then [] else
              [errFetchMsg (defaultQuery "Homo sapiens" "BRCA1" 0 9)
                "HTTPError"]) })) ∧
    (processSpecies pFErr initState "Homo sapiens" =
      .ok (handle_not_found "Homo sapiens" pFErr.gene_name pFErr.skip_errors
        { initState with printed := initState.printed ++
            (if pFErr.skip_errors then [] else
              [errFetchMsg (defaultQuery "Homo sapiens" "BRCA1" 0 9)
                "ReadTimeout"]) })) :=
  ⟨C1_fetch_error_absorbed pErr initState "Homo sapiens"
    (defaultQuery "Homo sapiens" "BRCA1" 0 9) "HTTPError" rfl
    (Or.inl rfl),
   C1_fetch_error_absorbed pFErr initState "Homo sapiens"
    (defaultQuery "Homo sapiens" "BRCA1" 0 9) "ReadTimeout" rfl
    (Or.inr ⟨"99", [], rfl, rfl⟩)⟩

/- ## Claim C2 -/

/-- Claim C2, counterexample.  The claim says the entry appended to
`found` pairs the species with the database-assigned identifier of the
first search hit (the id the fetch was issued for).  On the code this is
false: with `svcC2` the search returns id `"12345"` and the fetch for
`"12345"` succeeds, yet `found` records `"NM_0001.1"`, parsed out of the
FASTA header — not `"12345"`. -/
theorem C2_counterexample :
    fetch_sequence svcC2 (defaultQuery "Homo sapiens" "BRCA1" 0 9) false
      = ((some "12345",
          some ">NM_0001.1 Homo sapiens BRCA1 mRNA\nACGTACGT\n"), []) ∧
    fetch_gene_sequences pC2 ["Homo sapiens"] = .ok
      { found := [("Homo sapiens", "NM_0001.1")], unfound := [],
        warnings := "",
        corpus := [">NM_0001.1 Homo sapiens BRCA1 mRNA\nACGTACGT\n"],
        used_species := ["Homo sapiens"], printed := [],
        outputFasta := ">NM_0001.1 Homo sapiens BRCA1 mRNA\nACGTACGT\n",
        usedFile := none } ∧
    ("NM_0001.1" : String) ≠ "12345" :=
  ⟨rfl, rfl, by decide⟩

/-- Claim C2, amended: for every species classified Found, the entry
appended to `found` is `(species, headerId fasta)` — the identifier is
parsed from the fetched FASTA text (first line, first space-separated
token, leading `>` dropped), not taken from the search result; the FASTA
text itself is appended to the corpus and the species to `used_species`. -/
theorem C2_found_appends_header_id (P : Params) (st st2 : RunState)
    (s q sid fasta : String)
    (hq : queryOf P s = .ok q)
    (hp : (fetch_sequence P.svc q P.skip_errors).1 = (some sid, some fasta))
    (ht : isFoundPair (some sid, some fasta) = true)
    (h : processSpecies P st s = .ok st2) :
    st2.found = st.found ++ [(s, headerId fasta)] ∧
    st2.used_species = st.used_species ++ [s] ∧
    st2.corpus = st.corpus ++ [fasta] := by
  unfold processSpecies at h
  rw [hq] at h
  injection h with h2
  subst h2
  unfold stepCore
  simp only [hp, ht, if_true]
  split <;> simp

/-- Witness for `C2_found_appends_header_id` at the concrete run `pC2`. -/
theorem C2_found_appends_header_id_witness :
    ({ found := [("Homo sapiens", "NM_0001.1")], unfound := [],
       warnings := "",
       corpus := [">NM_0001.1 Homo sapiens BRCA1 mRNA\nACGTACGT\n"],
       used_species := ["Homo sapiens"], printed := [] } : RunState).found
      = ([] : List (String × String)) ++
        [("Homo sapiens",
          headerId ">NM_0001.1 Homo sapiens BRCA1 mRNA\nACGTACGT\n")] ∧
    ({ found := [("Homo sapiens", "NM_0001.1")], unfound := [],
       warnings := "",
       corpus := [">NM_0001.1 Homo sapiens BRCA1 mRNA\nACGTACGT\n"],
       used_species := ["Homo sapiens"], printed := [] } : RunState).used_species
      = ([] : List String) ++ ["Homo sapiens"] ∧
    ({ found := [("Homo sapiens", "NM_0001.1")], unfound := [],
       warnings := "",
       corpus := [">NM_0001.1 Homo sapiens BRCA1 mRNA\nACGTACGT\n"],
       used_species := ["Homo sapiens"], printed := [] } : RunState).corpus
      = ([] : List String) ++
        [">NM_0001.1 Homo sapiens BRCA1 mRNA\nACGTACGT\n"] := by
  have h := C2_found_appends_header_id pC2 initState
    { found := [("Homo sapiens", "NM_0001.1")], unfound := [],
      warnings := "",
      corpus := [">NM_0001.1 Homo sapiens BRCA1 mRNA\nACGTACGT\n"],
      used_species := ["Homo sapiens"], printed := [] }
    "Homo sapiens" (defaultQuery "Homo sapiens" "BRCA1" 0 9) "12345"
    ">NM_0001.1 Homo sapiens BRCA1 mRNA\nACGTACGT\n" rfl rfl rfl rfl
  simpa [initState] using h

/- ## Claim C3 -/

/-- A named field with no matching keyword argument anywhere in the
template makes the whole substitution raise. -/
lemma formatTemplate_err_named (vals : List String)
    (sp g mn mx n : String) (hn : lookupNamed n sp g mn mx = none) :
    ∀ tmpl : List TItem, TItem.named n ∈ tmpl →
      ∃ e, formatTemplate vals sp g mn mx tmpl = .error e := by
  intro tmpl
  induction tmpl with
  | nil => intro hmem; cases hmem
  | cons item rest ih =>
    intro hmem
    cases item with
    | lit t =>
      have hr : TItem.named n ∈ rest := by
        rcases List.mem_cons.mp hmem with h1 | h2
        · cases h1
        · exact h2
      obtain ⟨e, he⟩ := ih hr
      exact ⟨e, by simp [formatTemplate, he, Except.map]⟩
    | pos k =>
      cases hv : vals[k]? with
      | none =>
        exact ⟨"IndexError: Replacement index " ++ toString k ++
          " out of range for positional args tuple",
          by simp [formatTemplate, hv]⟩
      | some v =>
        have hr : TItem.named n ∈ rest := by
          rcases List.mem_cons.mp hmem with h1 | h2
          · cases h1
          · exact h2
        obtain ⟨e, he⟩ := ih hr
        exact ⟨e, by simp [formatTemplate, hv, he, Except.map]⟩
    | named m =>
      by_cases hm : m = n
      · subst hm
        exact ⟨"KeyError: " ++ m, by simp [formatTemplate, hn]⟩
      · have hr : TItem.named n ∈ rest := by
          rcases List.mem_cons.mp hmem with h1 | h2
          · cases h1; exact absurd rfl hm
          · exact h2
        obtain ⟨e, he⟩ := ih hr
        cases hl : lookupNamed m sp g mn mx with
        | none => exact ⟨"KeyError: " ++ m, by simp [formatTemplate, hl]⟩
        | some v => exact ⟨e, by simp [formatTemplate, hl, he, Except.map]⟩

/-- A positional field beyond the supplied tuple makes the whole
substitution raise. -/
lemma formatTemplate_err_pos (vals : List String) (sp g mn mx : String)
    (k : Nat) (hk : vals[k]? = none) :
    ∀ tmpl : List TItem, TItem.pos k ∈ tmpl →
      ∃ e, formatTemplate vals sp g mn mx tmpl = .error e := by
  intro tmpl
  induction tmpl with
  | nil => intro hmem; cases hmem
  | cons item rest ih =>
    intro hmem
    cases item with
    | lit t =>
      have hr : TItem.pos k ∈ rest := by
        rcases List.mem_cons.mp hmem with h1 | h2
        · cases h1
        · exact h2
      obtain ⟨e, he⟩ := ih hr
      exact ⟨e, by simp [formatTemplate, he, Except.map]⟩
    | pos j =>
      by_cases hj : j = k
      · subst hj
        exact ⟨"IndexError: Replacement index " ++ toString j ++
          " out of range for positional args tuple",
          by simp [formatTemplate, hk]⟩
      · have hr : TItem.pos k ∈ rest := by
          rcases List.mem_cons.mp hmem with h1 | h2
          · cases h1; exact absurd rfl hj
          · exact h2
        obtain ⟨e, he⟩ := ih hr
        cases hv : vals[j]? with
        | none =>
          exact ⟨"IndexError: Replacement index " ++ toString j ++
            " out of range for positional args tuple",
            by simp [formatTemplate, hv]⟩
        | some v => exact ⟨e, by simp [formatTemplate, hv, he, Except.map]⟩
    | named m =>
      have hr : TItem.pos k ∈ rest := by
        rcases List.mem_cons.mp hmem with h1 | h2
        · cases h1
        · exact h2
      obtain ⟨e, he⟩ := ih hr
      cases hl : lookupNamed m sp g mn mx with
      | none => exact ⟨"KeyError: " ++ m, by simp [formatTemplate, hl]⟩
      | some v => exact ⟨e, by simp [formatTemplate, hl, he, Except.map]⟩

/-- Claim C3, counterexample.  The claim says that whenever a query
template is given, the query is produced by substituting into it.  On the
code this is false when no `template_values` are given: with the template
`\x7bspecies\x7d` and `template_values = None`, the code returns the
default expression, although substitution (shown in the middle conjunct)
would have produced `"Homo sapiens"`, which differs from it. -/
theorem C3_counterexample :
    construct_search_query "Homo sapiens" "BRCA1" 0 9
        (some [TItem.named "species"]) none
      = .ok (defaultQuery "Homo sapiens" "BRCA1" 0 9) ∧
    formatTemplate [] "Homo sapiens" "BRCA1" "0" "9" [TItem.named "species"]
      = .ok "Homo sapiens" ∧
    defaultQuery "Homo sapiens" "BRCA1" 0 9 ≠ "Homo sapiens" :=
  ⟨rfl, rfl, by decide⟩

/-- Claim C3, amended: the template path is taken only when BOTH a
non-empty template AND a non-empty tuple of extra positional values are
supplied; then the query is the substitution of the positional values and
the named fields `species`, `gene_name`, `min_length`, `max_length`, and a
reference to an unsupplied name or position raises a templating error,
which aborts the iteration before any call on the remote service (the
result is the same `.error` for every service).  When the template is
given but the positional-values tuple is `None` (or empty), the default
expression is used instead and no templating error can occur. -/
theorem C3_template_guard (species gene_name : String)
    (min_length max_length : Nat) (tmpl : List TItem)
    (vals : Option (List String)) :
    (∀ vl, vals = some vl → vl ≠ [] → tmpl ≠ [] →
      construct_search_query species gene_name min_length max_length
          (some tmpl) vals
        = formatTemplate vl species gene_name (toString min_length)
            (toString max_length) tmpl) ∧
    ((pyTruthyTmpl (some tmpl) && pyTruthyVals vals) = false →
      construct_search_query species gene_name min_length max_length
          (some tmpl) vals
        = .ok (defaultQuery species gene_name min_length max_length)) ∧
    (∀ n, TItem.named n ∈ tmpl →
      lookupNamed n species gene_name (toString min_length)
          (toString max_length) = none →
      ∃ e, formatTemplate (vals.getD []) species gene_name
          (toString min_length) (toString max_length) tmpl = .error e) ∧
    (∀ k, TItem.pos k ∈ tmpl → (vals.getD []).length ≤ k →
      ∃ e, formatTemplate (vals.getD []) species gene_name
          (toString min_length) (toString max_length) tmpl = .error e) ∧
    (∀ (P : Params) (st : RunState) (s e : String) (svc2 : Service),
      queryOf P s = .error e →
      processSpecies { P with svc := svc2 } st s = .error e) := by
  refine ⟨?_, ?_, ?_, ?_, ?_⟩
  · intro vl hvl hne hte
    subst hvl
    unfold construct_search_query
    have h1 : pyTruthyTmpl (some tmpl) = true := by
      simp [pyTruthyTmpl, hte]
    have h2 : pyTruthyVals (some vl) = true := by
      simp [pyTruthyVals, hne]
    rw [h1, h2]
    rfl
  · intro hfalse
    unfold construct_search_query
    rw [hfalse]
    simp
  · intro n hmem hn
    exact formatTemplate_err_named (vals.getD []) species gene_name
      (toString min_length) (toString max_length) n hn tmpl hmem
  · intro k hmem hk
    have hv : (vals.getD [])[k]? = none := by
      exact List.getElem?_eq_none hk
    exact formatTemplate_err_pos (vals.getD []) species gene_name
      (toString min_length) (toString max_length) k hv tmpl hmem
  · intro P st s e svc2 hq
    have hq2 : queryOf { P with svc := svc2 } s = .error e := hq
    unfold processSpecies
    rw [hq2]

/-- Witness for `C3_template_guard` at concrete templates: the
substitution case, the template-ignored case, an unknown named field, an
out-of-range positional field, and the pre-network abort of the run. -/
theorem C3_template_guard_witness :
    construct_search_query "Homo sapiens" "BRCA1" 0 9
        (some [TItem.pos 0, TItem.named "species"]) (some ["X "])
      = formatTemplate ["X "] "Homo sapiens" "BRCA1" "0" "9"
          [TItem.pos 0, TItem.named "species"] ∧
    construct_search_query "Homo sapiens" "BRCA1" 0 9
        (some [TItem.named "species"]) none
      = .ok (defaultQuery "Homo sapiens" "BRCA1" 0 9) ∧
    (∃ e, formatTemplate ["extra"] "Homo sapiens" "BRCA1" "0" "9"
        [TItem.named "foo"] = .error e) ∧
    (∃ e, formatTemplate [] "Homo sapiens" "BRCA1" "0" "9"
        [TItem.pos 2] = .error e) ∧
    processSpecies { pBadTmpl with svc := svcErr } initState "Homo sapiens"
      = .error "KeyError: foo" := by
  refine ⟨?_, ?_, ?_, ?_, ?_⟩
  · exact (C3_template_guard "Homo sapiens" "BRCA1" 0 9
      [TItem.pos 0, TItem.named "species"] (some ["X "])).1
      ["X "] rfl (by decide) (by decide)
  · exact (C3_template_guard "Homo sapiens" "BRCA1" 0 9
      [TItem.named "species"] none).2.1 (by decide)
  · exact (C3_template_guard "Homo sapiens" "BRCA1" 0 9
      [TItem.named "foo"] (some ["extra"])).2.2.1 "foo" (by decide)
      (by decide)
  · exact (C3_template_guard "Homo sapiens" "BRCA1" 0 9
      [TItem.pos 2] none).2.2.2.1 2 (by decide) (by decide)
  · exact (C3_template_guard "Homo sapiens" "BRCA1" 0 9
      [TItem.named "foo"] (some ["extra"])).2.2.2.2 pBadTmpl initState
      "Homo sapiens" "KeyError: foo" svcErr rfl

/- ## Shared projections of a completed run -/

/-- In a completed run, the species components of `found` are exactly the
input species classified Found, in input order. -/
lemma found_map_fst (P : Params) (l : List String) (out : RunOutput)
    (h : fetch_gene_sequences P l = .ok out) :
    out.found.map Prod.fst = l.filter (isFound P) := by
  obtain ⟨hf, -, -, -, -⟩ := run_ok_char P l out h
  rw [hf]
  have h2 : foundUnit P = fun s =>
      if isFound P s then
        [(fun s2 => (s2, headerId (fastaFor P s2))) s]
      else [] := by
    funext s; rfl
  rw [h2, catMap_guard, List.map_map]
  have hid : (Prod.fst ∘ fun s2 => (s2, headerId (fastaFor P s2)))
      = fun s2 => s2 := rfl
  rw [hid]
  simp

/-- In a completed run, `unfound` is exactly the input species not
classified Found, in input order. -/
lemma unfound_eq_filter (P : Params) (l : List String) (out : RunOutput)
    (h : fetch_gene_sequences P l = .ok out) :
    out.unfound = l.filter (fun s => !isFound P s) := by
  obtain ⟨-, hu, -, -, -⟩ := run_ok_char P l out h
  rw [hu]
  have h3 : unfoundUnit P = fun s =>
      if (fun s2 => !isFound P s2) s then [id s] else [] := by
    funext s
    unfold unfoundUnit
    cases hf2 : isFound P s <;> simp [hf2]
  rw [h3, catMap_guard]
  simp

/-- In a completed run, `used_species` is exactly the input species
classified Found, in input order. -/
lemma used_eq_filter (P : Params) (l : List String) (out : RunOutput)
    (h : fetch_gene_sequences P l = .ok out) :
    out.used_species = l.filter (isFound P) := by
  obtain ⟨-, -, -, hus, -⟩ := run_ok_char P l out h
  rw [hus]
  have h4 : usedUnit P = fun s =>
      if isFound P s then [id s] else [] := by
    funext s; rfl
  rw [h4, catMap_guard]
  simp

/- ## Claim C4 -/

/-- Claim C4, confirmed: in every completed run, if `skip_errors` is
false the corpus has exactly one block per input species in input order
(its FASTA text if found, the placeholder block otherwise); if
`skip_errors` is true the corpus has exactly `found.length` blocks
(not-found species contribute none). -/
theorem C4_corpus_blocks (P : Params) (l : List String) (out : RunOutput)
    (h : fetch_gene_sequences P l = .ok out) :
    (P.skip_errors = false → out.corpus = l.map (blockOf P)) ∧
    (P.skip_errors = true → out.corpus.length = out.found.length) := by
  obtain ⟨hf, -, hc, -, -⟩ := run_ok_char P l out h
  constructor
  · intro hse
    rw [hc]
    have hunit : corpusUnit P = fun s => [blockOf P s] := by
      funext s
      unfold corpusUnit blockOf
      rw [hse]
      split <;> simp
    rw [hunit, catMap_single]
  · intro hse
    rw [hc, hf]
    have h1 : corpusUnit P = fun s =>
        if isFound P s then [fastaFor P s] else [] := by
      funext s
      unfold corpusUnit
      rw [hse]
      split <;> simp
    have h2 : foundUnit P = fun s =>
        if isFound P s then
          [(fun s2 => (s2, headerId (fastaFor P s2))) s]
        else [] := by
      funext s; rfl
    rw [h1, h2, catMap_guard, catMap_guard]
    simp

/-- Witness for `C4_corpus_blocks` at the concrete run `pW4`
(one hit, one miss, `skip_errors = False`). -/
theorem C4_corpus_blocks_witness :
    (pW4.skip_errors = false →
      ({ found := [("Homo sapiens", "AB1.2")], unfound := ["Mus musculus"],
         warnings := "",
         corpus := [">AB1.2 Homo sapiens BRCA1\nACGT\n",
           ">Mus musculus BRCA1 not found.\n\n"],
         used_species := ["Homo sapiens"], printed := [],
         outputFasta := ">AB1.2 Homo sapiens BRCA1\nACGT\n>Mus musculus BRCA1 not found.\n\n",
         usedFile := none } : RunOutput).corpus
        = ["Homo sapiens", "Mus musculus"].map (blockOf pW4)) ∧
    (pW4.skip_errors = true →
      ({ found := [("Homo sapiens", "AB1.2")], unfound := ["Mus musculus"],
         warnings := "",
         corpus := [">AB1.2 Homo sapiens BRCA1\nACGT\n",
           ">Mus musculus BRCA1 not found.\n\n"],
         used_species := ["Homo sapiens"], printed := [],
         outputFasta := ">AB1.2 Homo sapiens BRCA1\nACGT\n>Mus musculus BRCA1 not found.\n\n",
         usedFile := none } : RunOutput).corpus.length
        = ({ found := [("Homo sapiens", "AB1.2")],
             unfound := ["Mus musculus"], warnings := "",
             corpus := [">AB1.2 Homo sapiens BRCA1\nACGT\n",
               ">Mus musculus BRCA1 not found.\n\n"],
             used_species := ["Homo sapiens"], printed := [],
             outputFasta := ">AB1.2 Homo sapiens BRCA1\nACGT\n>Mus musculus BRCA1 not found.\n\n",
             usedFile := none } : RunOutput).found.length) :=
  C4_corpus_blocks pW4 ["Homo sapiens", "Mus musculus"] _ rfl

/- ## Claim C5 -/

/-- Claim C5, confirmed: for every run completed with
`skip_errors = True`, `found` and `unfound` partition the input list:
their lengths sum to the input length and every input species belongs to
exactly one of the two. -/
theorem C5_found_unfound_partition (P : Params) (l : List String)
    (out : RunOutput) (_hse : P.skip_errors = true)
    (h : fetch_gene_sequences P l = .ok out) :
    out.found.length + out.unfound.length = l.length ∧
    ∀ s ∈ l, ((s ∈ out.found.map Prod.fst) ∧ s ∉ out.unfound) ∨
      ((s ∉ out.found.map Prod.fst) ∧ s ∈ out.unfound) := by
  have hfmap := found_map_fst P l out h
  have humap := unfound_eq_filter P l out h
  constructor
  · have hlen1 : out.found.length = (l.filter (isFound P)).length := by
      have := congrArg List.length hfmap
      simpa using this
    rw [hlen1, humap]
    exact length_filter_both (isFound P) l
  · intro s hs
    rw [hfmap, humap]
    cases hf2 : isFound P s with
    | true =>
      left
      refine ⟨List.mem_filter.mpr ⟨hs, hf2⟩, ?_⟩
      intro hcon
      have h2 := (List.mem_filter.mp hcon).2
      rw [hf2] at h2
      simp at h2
    | false =>
      right
      refine ⟨?_, List.mem_filter.mpr ⟨hs, by simp [hf2]⟩⟩
      intro hcon
      have h2 := (List.mem_filter.mp hcon).2
      rw [hf2] at h2
      simp at h2

/-- Witness for `C5_found_unfound_partition` at the concrete run `pW5`
(`skip_errors = True`, one hit, one miss). -/
theorem C5_found_unfound_partition_witness :
    ({ found := [("Homo sapiens", "AB1.2")], unfound := ["Mus musculus"],
       warnings := "", corpus := [">AB1.2 Homo sapiens BRCA1\nACGT\n"],
       used_species := ["Homo sapiens"], printed := [],
       outputFasta := ">AB1.2 Homo sapiens BRCA1\nACGT\n",
       usedFile := some "Homo sapiens\n" } : RunOutput).found.length +
      ({ found := [("Homo sapiens", "AB1.2")], unfound := ["Mus musculus"],
         warnings := "", corpus := [">AB1.2 Homo sapiens BRCA1\nACGT\n"],
         used_species := ["Homo sapiens"], printed := [],
         outputFasta := ">AB1.2 Homo sapiens BRCA1\nACGT\n",
         usedFile := some "Homo sapiens\n" } : RunOutput).unfound.length
      = (["Homo sapiens", "Mus musculus"] : List String).length ∧
    ∀ s ∈ (["Homo sapiens", "Mus musculus"] : List String),
      ((s ∈ ({ found := [("Homo sapiens", "AB1.2")],
               unfound := ["Mus musculus"], warnings := "",
               corpus := [">AB1.2 Homo sapiens BRCA1\nACGT\n"],
               used_species := ["Homo sapiens"], printed := [],
               outputFasta := ">AB1.2 Homo sapiens BRCA1\nACGT\n",
               usedFile := some "Homo sapiens\n" } : RunOutput).found.map
                 Prod.fst) ∧
        s ∉ ({ found := [("Homo sapiens", "AB1.2")],
               unfound := ["Mus musculus"], warnings := "",
               corpus := [">AB1.2 Homo sapiens BRCA1\nACGT\n"],
               used_species := ["Homo sapiens"], printed := [],
               outputFasta := ">AB1.2 Homo sapiens BRCA1\nACGT\n",
               usedFile := some "Homo sapiens\n" } : RunOutput).unfound) ∨
      ((s ∉ ({ found := [("Homo sapiens", "AB1.2")],
               unfound := ["Mus musculus"], warnings := "",
               corpus := [">AB1.2 Homo sapiens BRCA1\nACGT\n"],
               used_species := ["Homo sapiens"], printed := [],
               outputFasta := ">AB1.2 Homo sapiens BRCA1\nACGT\n",
               usedFile := some "Homo sapiens\n" } : RunOutput).found.map
                 Prod.fst) ∧
        s ∈ ({ found := [("Homo sapiens", "AB1.2")],
               unfound := ["Mus musculus"], warnings := "",
               corpus := [">AB1.2 Homo sapiens BRCA1\nACGT\n"],
               used_species := ["Homo sapiens"], printed := [],
               outputFasta := ">AB1.2 Homo sapiens BRCA1\nACGT\n",
               usedFile := some "Homo sapiens\n" } : RunOutput).unfound) :=
  C5_found_unfound_partition pW5 ["Homo sapiens", "Mus musculus"] _ rfl rfl

/- ## Claim C8 -/

/-- Claim C8, confirmed: `used_species.txt` is written if and only if
`skip_errors or skip_warnings` holds for the run, and its content is the
`used_species` entries, one per line, in emission order. -/
theorem C8_used_species_file (P : Params) (l : List String)
    (out : RunOutput) (h : fetch_gene_sequences P l = .ok out) :
    out.usedFile.isSome = (P.skip_errors || P.skip_warnings) ∧
    out.usedFile = (if P.skip_errors || P.skip_warnings then
        some (String.join (out.used_species.map (fun s => s ++ "\n")))
      else none) := by
  obtain ⟨-, -, -, -, hfile⟩ := run_ok_char P l out h
  refine ⟨?_, hfile⟩
  rw [hfile]
  cases hb : (P.skip_errors || P.skip_warnings) <;> simp

/-- Witness for `C8_used_species_file` at the concrete run `pW5`
(`skip_errors = True`, so the file is written). -/
theorem C8_used_species_file_witness :
    ({ found := [("Homo sapiens", "AB1.2")], unfound := ["Mus musculus"],
       warnings := "", corpus := [">AB1.2 Homo sapiens BRCA1\nACGT\n"],
       used_species := ["Homo sapiens"], printed := [],
       outputFasta := ">AB1.2 Homo sapiens BRCA1\nACGT\n",
       usedFile := some "Homo sapiens\n" } : RunOutput).usedFile.isSome
      = (pW5.skip_errors || pW5.skip_warnings) ∧
    ({ found := [("Homo sapiens", "AB1.2")], unfound := ["Mus musculus"],
       warnings := "", corpus := [">AB1.2 Homo sapiens BRCA1\nACGT\n"],
       used_species := ["Homo sapiens"], printed := [],
       outputFasta := ">AB1.2 Homo sapiens BRCA1\nACGT\n",
       usedFile := some "Homo sapiens\n" } : RunOutput).usedFile
      = (if pW5.skip_errors || pW5.skip_warnings then
          some (String.join
            (({ found := [("Homo sapiens", "AB1.2")],
                unfound := ["Mus musculus"], warnings := "",
                corpus := [">AB1.2 Homo sapiens BRCA1\nACGT\n"],
                used_species := ["Homo sapiens"], printed := [],
                outputFasta := ">AB1.2 Homo sapiens BRCA1\nACGT\n",
                usedFile := some "Homo sapiens\n" } :
                  RunOutput).used_species.map (fun s => s ++ "\n")))
        else none) :=
  C8_used_species_file pW5 ["Homo sapiens", "Mus musculus"] _ rfl

/- ## Claim C10 -/

/-- Claim C10, confirmed: after every completed run, `used_species`
equals, element by element and in order, the species components of
`found` (both are appended together exactly once per Found species), so
their lengths are equal — independently of the `skip_errors` and
`skip_warnings` flags. -/
theorem C10_used_species_eq_found (P : Params) (l : List String)
    (out : RunOutput) (h : fetch_gene_sequences P l = .ok out) :
    out.used_species = out.found.map Prod.fst ∧
    out.used_species.length = out.found.length := by
  have h1 := used_eq_filter P l out h
  have h2 := found_map_fst P l out h
  have h3 : out.used_species = out.found.map Prod.fst := by rw [h1, h2]
  refine ⟨h3, ?_⟩
  rw [h3]
  simp

/-- Witness for `C10_used_species_eq_found` at the concrete run `pW4`. -/
theorem C10_used_species_eq_found_witness :
    ({ found := [("Homo sapiens", "AB1.2")], unfound := ["Mus musculus"],
       warnings := "",
       corpus := [">AB1.2 Homo sapiens BRCA1\nACGT\n",
         ">Mus musculus BRCA1 not found.\n\n"],
       used_species := ["Homo sapiens"], printed := [],
       outputFasta := ">AB1.2 Homo sapiens BRCA1\nACGT\n>Mus musculus BRCA1 not found.\n\n",
       usedFile := none } : RunOutput).used_species
      = ({ found := [("Homo sapiens", "AB1.2")],
           unfound := ["Mus musculus"], warnings := "",
           corpus := [">AB1.2 Homo sapiens BRCA1\nACGT\n",
             ">Mus musculus BRCA1 not found.\n\n"],
           used_species := ["Homo sapiens"], printed := [],
           outputFasta := ">AB1.2 Homo sapiens BRCA1\nACGT\n>Mus musculus BRCA1 not found.\n\n",
           usedFile := none } : RunOutput).found.map Prod.fst ∧
    ({ found := [("Homo sapiens", "AB1.2")], unfound := ["Mus musculus"],
       warnings := "",
       corpus := [">AB1.2 Homo sapiens BRCA1\nACGT\n",
         ">Mus musculus BRCA1 not found.\n\n"],
       used_species := ["Homo sapiens"], printed := [],
       outputFasta := ">AB1.2 Homo sapiens BRCA1\nACGT\n>Mus musculus BRCA1 not found.\n\n",
       usedFile := none } : RunOutput).used_species.length
      = ({ found := [("Homo sapiens", "AB1.2")],
           unfound := ["Mus musculus"], warnings := "",
           corpus := [">AB1.2 Homo sapiens BRCA1\nACGT\n",
             ">Mus musculus BRCA1 not found.\n\n"],
           used_species := ["Homo sapiens"], printed := [],
           outputFasta := ">AB1.2 Homo sapiens BRCA1\nACGT\n>Mus musculus BRCA1 not found.\n\n",
           usedFile := none } : RunOutput).found.length :=
  C10_used_species_eq_found pW4 ["Homo sapiens", "Mus musculus"] _ rfl

/- ## Claim C6 -/

/-- Claim C6, confirmed: for every Found record, `name_match` holds
exactly when the lower-cased species name is a substring of the
lower-cased full FASTA text; when it fails and `skip_warnings` is false
the exact warning line is both printed and appended (with a newline) to
the aggregate warnings text; when `skip_warnings` is true, or the name
matches, nothing is printed beyond the optional verbose line and the
warnings text is unchanged. -/
theorem C6_name_mismatch_warning (P : Params) (st st2 : RunState)
    (s q sid fasta : String)
    (hq : queryOf P s = .ok q)
    (hp : (fetch_sequence P.svc q P.skip_errors).1 = (some sid, some fasta))
    (ht : isFoundPair (some sid, some fasta) = true)
    (h : processSpecies P st s = .ok st2) :
    (name_match s fasta = true ↔
      strIn (pyLower s).data (pyLower fasta).data = true) ∧
    generate_warning s = "WARNING: Full/Same name for " ++ s ++
      " not found in fasta header, check it manually!" ∧
    (name_match s fasta = false ∧ P.skip_warnings = false →
      st2.warnings = st.warnings ++ generate_warning s ++ "\n" ∧
      st2.printed = st.printed ++
        (if P.verbose then [foundMsg s P.gene_name sid fasta] else []) ++
        [generate_warning s]) ∧
    (P.skip_warnings = true →
      st2.warnings = st.warnings ∧
      st2.printed = st.printed ++
        (if P.verbose then [foundMsg s P.gene_name sid fasta] else [])) ∧
    (name_match s fasta = true →
      st2.warnings = st.warnings ∧
      st2.printed = st.printed ++
        (if P.verbose then [foundMsg s P.gene_name sid fasta] else [])) := by
  have hmsg := fetch_sequence_some_printed P.svc q P.skip_errors sid fasta hp
  unfold processSpecies at h
  rw [hq] at h
  injection h with h2
  subst h2
  unfold stepCore
  refine ⟨Iff.rfl, rfl, ?_, ?_, ?_⟩
  · rintro ⟨hnm, hsw⟩
    simp [hp, ht, hmsg, hnm, hsw]
  · intro hsw
    simp only [hp, ht, hmsg, hsw]
    split <;> simp_all
  · intro hnm
    simp only [hp, ht, hmsg, hnm]
    split <;> simp_all

/-- Witness for `C6_name_mismatch_warning` at the concrete mismatch run
`pMis` (species `"Canis lupus"`, fetched header naming a different
species). -/
theorem C6_name_mismatch_warning_witness :
    (name_match "Canis lupus" ">XY_9.9 Canis familiaris ANYGENE\nACGT\n"
        = true ↔
      strIn (pyLower "Canis lupus").data
        (pyLower ">XY_9.9 Canis familiaris ANYGENE\nACGT\n").data = true) ∧
    generate_warning "Canis lupus"
      = "WARNING: Full/Same name for " ++ "Canis lupus" ++
        " not found in fasta header, check it manually!" ∧
    (name_match "Canis lupus" ">XY_9.9 Canis familiaris ANYGENE\nACGT\n"
        = false ∧ pMis.skip_warnings = false →
      ({ found := [("Canis lupus", "XY_9.9")], unfound := [],
         warnings := "WARNING: Full/Same name for Canis lupus not found in fasta header, check it manually!\n",
         corpus := [">XY_9.9 Canis familiaris ANYGENE\nACGT\n"],
         used_species := ["Canis lupus"],
         printed := ["WARNING: Full/Same name for Canis lupus not found in fasta header, check it manually!"] } : RunState).warnings
        = initState.warnings ++ generate_warning "Canis lupus" ++ "\n" ∧
      ({ found := [("Canis lupus", "XY_9.9")], unfound := [],
         warnings := "WARNING: Full/Same name for Canis lupus not found in fasta header, check it manually!\n",
         corpus := [">XY_9.9 Canis familiaris ANYGENE\nACGT\n"],
         used_species := ["Canis lupus"],
         printed := ["WARNING: Full/Same name for Canis lupus not found in fasta header, check it manually!"] } : RunState).printed
        = initState.printed ++
          (if pMis.verbose then
            [foundMsg "Canis lupus" pMis.gene_name "21"
              ">XY_9.9 Canis familiaris ANYGENE\nACGT\n"]
           else []) ++
          [generate_warning "Canis lupus"]) ∧
    (pMis.skip_warnings = true →
      ({ found := [("Canis lupus", "XY_9.9")], unfound := [],
         warnings := "WARNING: Full/Same name for Canis lupus not found in fasta header, check it manually!\n",
         corpus := [">XY_9.9 Canis familiaris ANYGENE\nACGT\n"],
         used_species := ["Canis lupus"],
         printed := ["WARNING: Full/Same name for Canis lupus not found in fasta header, check it manually!"] } : RunState).warnings
        = initState.warnings ∧
      ({ found := [("Canis lupus", "XY_9.9")], unfound := [],
         warnings := "WARNING: Full/Same name for Canis lupus not found in fasta header, check it manually!\n",
         corpus := [">XY_9.9 Canis familiaris ANYGENE\nACGT\n"],
         used_species := ["Canis lupus"],
         printed := ["WARNING: Full/Same name for Canis lupus not found in fasta header, check it manually!"] } : RunState).printed
        = initState.printed ++
          (if pMis.verbose then
            [foundMsg "Canis lupus" pMis.gene_name "21"
              ">XY_9.9 Canis familiaris ANYGENE\nACGT\n"]
           else [])) ∧
    (name_match "Canis lupus" ">XY_9.9 Canis familiaris ANYGENE\nACGT\n"
        = true →
      ({ found := [("Canis lupus", "XY_9.9")], unfound := [],
         warnings := "WARNING: Full/Same name for Canis lupus not found in fasta header, check it manually!\n",
         corpus := [">XY_9.9 Canis familiaris ANYGENE\nACGT\n"],
         used_species := ["Canis lupus"],
         printed := ["WARNING: Full/Same name for Canis lupus not found in fasta header, check it manually!"] } : RunState).warnings
        = initState.warnings ∧
      ({ found := [("Canis lupus", "XY_9.9")], unfound := [],
         warnings := "WARNING: Full/Same name for Canis lupus not found in fasta header, check it manually!\n",
         corpus := [">XY_9.9 Canis familiaris ANYGENE\nACGT\n"],
         used_species := ["Canis lupus"],
         printed := ["WARNING: Full/Same name for Canis lupus not found in fasta header, check it manually!"] } : RunState).printed
        = initState.printed ++
          (if pMis.verbose then
            [foundMsg "Canis lupus" pMis.gene_name "21"
              ">XY_9.9 Canis familiaris ANYGENE\nACGT\n"]
           else [])) :=
  C6_name_mismatch_warning pMis initState _ "Canis lupus"
    (defaultQuery "Canis lupus" "BRCA1" 0 9) "21"
    ">XY_9.9 Canis familiaris ANYGENE\nACGT\n" rfl rfl rfl rfl

/- ## Claim C7 -/

/-- Claim C7, confirmed: a species with no result is appended to
`unfound`, and exactly when `skip_errors` is false the literal placeholder
block is appended to the corpus; with `skip_errors` true no placeholder is
added. -/
theorem C7_not_found_placeholder (P : Params) (st st2 : RunState)
    (s q : String)
    (hq : queryOf P s = .ok q)
    (hnf : isFoundPair (fetch_sequence P.svc q P.skip_errors).1 = false)
    (h : processSpecies P st s = .ok st2) :
    st2.unfound = st.unfound ++ [s] ∧
    (P.skip_errors = false →
      st2.corpus = st.corpus ++ [notFoundBlock s P.gene_name] ∧
      notFoundBlock s P.gene_name
        = ">" ++ s ++ " " ++ P.gene_name ++ " not found.\n\n") ∧
    (P.skip_errors = true → st2.corpus = st.corpus) := by
  unfold processSpecies at h
  rw [hq] at h
  injection h with h2
  subst h2
  unfold stepCore handle_not_found
  refine ⟨?_, ?_, ?_⟩
  · simp [hnf]
  · intro hse
    rw [hse] at hnf
    simp [hnf, hse, notFoundBlock]
  · intro hse
    rw [hse] at hnf
    simp [hnf, hse]

/-- Witness for `C7_not_found_placeholder` at the concrete zero-hit run
`pNone` (`skip_errors = False`). -/
theorem C7_not_found_placeholder_witness :
    ({ found := [], unfound := ["Mus musculus"], warnings := "",
       corpus := [">Mus musculus BRCA1 not found.\n\n"],
       used_species := [], printed := [] } : RunState).unfound
      = initState.unfound ++ ["Mus musculus"] ∧
    (pNone.skip_errors = false →
      ({ found := [], unfound := ["Mus musculus"], warnings := "",
         corpus := [">Mus musculus BRCA1 not found.\n\n"],
         used_species := [], printed := [] } : RunState).corpus
        = initState.corpus ++ [notFoundBlock "Mus musculus" pNone.gene_name] ∧
      notFoundBlock "Mus musculus" pNone.gene_name
        = ">" ++ "Mus musculus" ++ " " ++ pNone.gene_name ++
          " not found.\n\n") ∧
    (pNone.skip_errors = true →
      ({ found := [], unfound := ["Mus musculus"], warnings := "",
         corpus := [">Mus musculus BRCA1 not found.\n\n"],
         used_species := [], printed := [] } : RunState).corpus
        = initState.corpus) :=
  C7_not_found_placeholder pNone initState _ "Mus musculus"
    (defaultQuery "Mus musculus" "BRCA1" 0 9) rfl rfl rfl

/- ## Claim C9 -/

/-- Claim C9, counterexample.  The claim says an all-None pair is the only
shape that leads to NotFound classification.  On the code this is false:
with `svcC9` the search succeeds with id `"777"` and the fetch returns an
empty text, so `fetch_sequence` returns the pair
`(some "777", some "")` — not all-None — yet Python truthiness classifies
it NotFound and the run records the species as unfound. -/
theorem C9_counterexample :
    (fetch_sequence svcC9 (defaultQuery "Canis lupus" "BRCA1" 0 9)
        false).1 = (some "777", some "") ∧
    isFoundPair (some "777", some "") = false ∧
    ((some "777", some ("" : String)) ≠
      ((none : Option String), (none : Option String))) ∧
    fetch_gene_sequences pC9 ["Canis lupus"] = .ok
      { found := [], unfound := ["Canis lupus"], warnings := "",
        corpus := [">Canis lupus BRCA1 not found.\n\n"],
        used_species := [], printed := [],
        outputFasta := ">Canis lupus BRCA1 not found.\n\n",
        usedFile := none } :=
  ⟨rfl, rfl, by decide, rfl⟩

/-- Claim C9, amended: `fetch_sequence` never returns a half-present
pair — the id is present exactly when the text is — and the NotFound
classification (`isFoundPair .. = false`) holds exactly when the pair is
all-None or either component is the empty string (Python truthiness), so
an all-None pair always classifies NotFound but `(some id, some "")` does
too. -/
theorem C9_pair_shape (svc : Service) (q : String) (b : Bool) :
    (fetch_sequence svc q b).1.1.isSome
      = (fetch_sequence svc q b).1.2.isSome ∧
    (isFoundPair (fetch_sequence svc q b).1 = false ↔
      ((fetch_sequence svc q b).1 = (none, none) ∨
       (fetch_sequence svc q b).1.1 = some "" ∨
       (fetch_sequence svc q b).1.2 = some "")) := by
  cases hs : svc.esearch q with
  | error e => simp [fetch_sequence, hs, isFoundPair, pyTruthyOpt]
  | ok ids =>
    cases ids with
    | nil => simp [fetch_sequence, hs, isFoundPair, pyTruthyOpt]
    | cons id rest =>
      cases hf : svc.efetch id with
      | error e => simp [fetch_sequence, hs, hf, isFoundPair, pyTruthyOpt]
      | ok fasta =>
        simp [fetch_sequence, hs, hf, isFoundPair, pyTruthyOpt,
          pyTruthyStr]
        tauto
